import Mathlib

/-!
Verification development for the `taxonomy-generator` service
(`src/services/taxonomy-generator/src/...`).

Shallow embedding conventions:
* record UUIDs are modelled as `Nat`, texts as `String`;
* embedding vectors are `List ℚ`;
* the external numerical collaborators (the UMAP library call, the
  `hdbscan.HDBSCAN(...).fit_predict` call, the OpenAI chat and embedding
  endpoints, `np.linalg.norm`) are oracles packaged in the `Oracles`
  structure; the repository's own wrapper logic around them is embedded
  faithfully;
* `async` calls that can raise are modelled in `Except String`; the
  database is a piece of state threaded explicitly (effects performed
  before an exception stay performed, exactly as in the Python service).
-/

namespace Hub

abbrev RecordId := Nat
abbrev Vec := List ℚ
abbrev Err := String

/-! ### Settings (src/config.py) -/

def settings_umap_n_components : Nat := 10
def settings_umap_n_neighbors : Nat := 15
def settings_umap_min_dist : ℚ := 1 / 10
def settings_hdbscan_min_cluster_size : Nat := 50
def settings_hdbscan_min_samples : Nat := 10
def settings_centroid_sample_size : Nat := 10

/-! ### ClusterConfig (src/models/schemas.py) -/

/-- Embedding of `ClusterConfig`.  Optional fields are `Option`-valued
(pydantic `None` defaults); the per-level dicts are association lists. -/
structure ClusterConfig where
  umap_n_components : Option Nat := none
  umap_n_neighbors : Option Nat := none
  umap_min_dist : Option ℚ := none
  hdbscan_min_cluster_size : Option Nat := none
  hdbscan_min_samples : Option Nat := none
  max_embeddings : Option Nat := none
  max_levels : Nat := 3
  level_min_cluster_sizes : List (Nat × Nat) := [(1, 40), (2, 20), (3, 10), (4, 10)]
  level_hdbscan_min_cluster_sizes : List (Nat × Nat) := [(1, 30), (2, 15), (3, 8), (4, 5)]
  generate_level2 : Bool := true
  level2_min_cluster_size : Nat := 50
deriving Repr, DecidableEq

def ClusterConfig.get_min_cluster_size_for_level (c : ClusterConfig) (level : Nat) : Nat :=
  ((c.level_min_cluster_sizes.lookup level).getD 25)

def ClusterConfig.get_hdbscan_min_cluster_size_for_level (c : ClusterConfig) (level : Nat) : Nat :=
  ((c.level_hdbscan_min_cluster_sizes.lookup level).getD 10)

/-! ### Clusters (src/clustering/hdbscan_clusterer.py) -/

/-- Embedding of the `Cluster` dataclass. -/
structure Cluster where
  label : Int
  member_indices : List Nat
  member_ids : List RecordId
  member_texts : List String
  centroid : Vec
  size : Nat
  avg_distance_to_centroid : ℚ
deriving Repr, DecidableEq

/-- Embedding of the `ClusteringResult` dataclass. -/
structure ClusteringResult where
  clusters : List Cluster
  noise_indices : List Nat
  noise_ids : List RecordId
  labels : List Int
  probabilities : List ℚ
deriving Repr, DecidableEq

/-- Componentwise sum of a batch of vectors (`cluster_embeddings.mean(axis=0)`
is this divided by the batch size). -/
def vecSum : List Vec → Vec
  | [] => []
  | [v] => v
  | v :: vs => List.zipWith (· + ·) v (vecSum vs)

/-- Arithmetic mean of a nonempty batch of vectors; `np.ndarray.mean(axis=0)`. -/
def vecMean (vs : List Vec) : Vec :=
  (vecSum vs).map (fun x => x / (vs.length : ℚ))

/-- Arithmetic mean of a list of scalars; `np.ndarray.mean()`. -/
def qMean (l : List ℚ) : ℚ := l.sum / (l.length : ℚ)

/-- One `Cluster` object as built in the `for label in sorted(unique_labels)`
loop of `HDBSCANClusterer.fit_predict` (hdbscan_clusterer.py lines 115-136).
`dist` is the oracle for `np.linalg.norm(x - y)`. -/
def clusterFor (dist : Vec → Vec → ℚ) (embeddings : List Vec) (record_ids : List RecordId)
    (texts : List String) (labels : List Int) (lab : Int) : Cluster :=
  let indices := (List.range labels.length).filter (fun i => labels.getD i (-1) == lab)
  let cluster_embeddings := indices.map (fun i => embeddings.getD i [])
  let centroid := vecMean cluster_embeddings
  let distances := cluster_embeddings.map (fun v => dist v centroid)
  { label := lab
    member_indices := indices
    member_ids := indices.map (fun i => record_ids.getD i 0)
    member_texts := indices.map (fun i => texts.getD i (""))
    centroid := centroid
    size := indices.length
    avg_distance_to_centroid := qMean distances }

/-- The pure part of `HDBSCANClusterer.fit_predict` (lines 106-151): given the
label vector returned by the external `hdbscan` fit, separate noise from
clusters and build the `Cluster` objects for the distinct non-noise labels in
ascending order. -/
def buildClusteringResult (dist : Vec → Vec → ℚ) (embeddings : List Vec)
    (record_ids : List RecordId) (texts : List String) (labels : List Int)
    (probabilities : List ℚ) : ClusteringResult :=
  let noise_indices := (List.range labels.length).filter (fun i => labels.getD i (-1) == -1)
  let noise_ids := noise_indices.map (fun i => record_ids.getD i 0)
  let unique_labels := List.insertionSort (· ≤ ·) ((labels.filter (fun x => x != -1)).dedup)
  { clusters := unique_labels.map (clusterFor dist embeddings record_ids texts labels)
    noise_indices := noise_indices
    noise_ids := noise_ids
    labels := labels
    probabilities := probabilities }

/-! ### Representative selection (hdbscan_clusterer.py lines 153-183)

`np.argsort` (called with its default `kind='quicksort'`, which numpy
documents as **not** stable) is an external library call: it is modelled as an
oracle ranking function, constrained in the theorems only by numpy's
documented contract — the output is a permutation of all positions along
which the values are ascending.  The order of positions with equal values is
deliberately left open.  `stableArgsort` below is one concrete ranking that
meets the contract (the stable distance-then-original-position order), used
to instantiate witnesses; `revTieSort` further down is another, which breaks
ties against the original order. -/

/-- Strict lexicographic order on positions by (value at position, position). -/
def lexLt (v : List ℚ) (i j : Nat) : Prop :=
  v.getD i 0 < v.getD j 0 ∨ (v.getD i 0 = v.getD j 0 ∧ i < j)

instance (v : List ℚ) (i j : Nat) : Decidable (lexLt v i j) := by
  unfold lexLt; infer_instance

/-- Insert position `i` into a `lexLt`-sorted list of positions. -/
def argsortInsert (v : List ℚ) (i : Nat) : List Nat → List Nat
  | [] => [i]
  | j :: l => if lexLt v j i then j :: argsortInsert v i l else i :: j :: l

/-- One contract-compliant ranking: the positions `0, …, v.length - 1`
sorted by the stable total order `lexLt v`. -/
def stableArgsort (v : List ℚ) : List Nat :=
  (List.range v.length).foldr (argsortInsert v) []

/-- The member embeddings of a cluster: `embeddings[cluster.member_indices]`. -/
def clusterEmbeddings (embeddings : List Vec) (c : Cluster) : List Vec :=
  c.member_indices.map (fun i => embeddings.getD i [])

/-- Distances of the cluster's members to the cluster's own centroid
(`np.linalg.norm(cluster_embeddings - cluster.centroid, axis=1)`). -/
def centroidDistances (dist : Vec → Vec → ℚ) (c : Cluster)
    (embeddings : List Vec) : List ℚ :=
  (clusterEmbeddings embeddings c).map (fun v => dist v c.centroid)

/-- Embedding of `HDBSCANClusterer.get_closest_to_centroid` (lines 153-183):
distances of the cluster's members to its centroid, `np.argsort` (the
`argsortFn` oracle), first `n` positions mapped back to
(global index, text, distance) triples. -/
def get_closest_to_centroid (dist : Vec → Vec → ℚ)
    (argsortFn : List ℚ → List Nat) (c : Cluster)
    (embeddings : List Vec) (n : Nat) : List (Nat × String × ℚ) :=
  let distances := centroidDistances dist c embeddings
  let sorted_indices := (argsortFn distances).take n
  sorted_indices.map (fun local_idx =>
    (c.member_indices.getD local_idx 0, c.member_texts.getD local_idx (""),
      distances.getD local_idx 0))

/-! ### Labeling (src/labeling/openai_labeler.py) -/

/-- Embedding of the `TopicLabel` dataclass. -/
structure TopicLabel where
  title : String
  description : String
deriving Repr, DecidableEq

/-- Outcome of one chat-completion round trip, as seen by `label_cluster`
after the `json.loads`/`result.get` step: a successfully extracted pair of
strings, a JSON parse failure, or any other raised error (remote failure,
empty response, non-dict payload, ...). -/
inductive LLMOutcome where
  | ok (title description : String)
  | malformed
  | failure
deriving Repr, DecidableEq

/-- Oracle for the chat completion: the request is determined by the
representative texts, cluster size, parent title, level and ancestor titles
(the prompt is a pure function of these, openai_labeler.py lines 56-101). -/
abbrev LLMOracle :=
  List String → Nat → Option String → Nat → Option (List String) → LLMOutcome

/-- Deterministic fallback label (openai_labeler.py lines 132-143). -/
def fallbackLabel (cluster_size : Nat) : TopicLabel :=
  { title := "Cluster (" ++ toString cluster_size ++ " items)"
    description := "Auto-generated cluster" }

/-- Embedding of `OpenAILabeler.label_cluster` (lines 35-143).  Both `except`
arms return the fallback label, so the function is total: no labeling failure
escapes it.  On success the title/description are truncated to 255/500
characters (`[:255]`, `[:500]`). -/
def label_cluster (llm : LLMOracle) (representative_texts : List String)
    (cluster_size : Nat) (parent_title : Option String) (level : Nat)
    (ancestor_titles : Option (List String)) : TopicLabel :=
  match llm representative_texts cluster_size parent_title level ancestor_titles with
  | .ok t d => { title := t.take 255, description := d.take 500 }
  | .malformed => fallbackLabel cluster_size
  | .failure => fallbackLabel cluster_size

/-! ### Oracles for the external collaborators -/

/-- Parameters handed to the UMAP library (`umap.UMAP(...)`). -/
structure UParams where
  n_components : Nat
  n_neighbors : Nat
  min_dist : ℚ
deriving Repr, DecidableEq

/-- Parameters handed to the hdbscan library (`hdbscan.HDBSCAN(...)`). -/
structure HParams where
  min_cluster_size : Nat
  min_samples : Nat
  cluster_selection_epsilon : ℚ
deriving Repr, DecidableEq

/-- The external black boxes: the UMAP fit, the hdbscan fit (returning the
label vector and per-point probabilities), the chat labeler, the embedding
endpoint (`OpenAILabeler.generate_embedding`, which has **no** try/except:
its errors propagate), and the float Euclidean norm `np.linalg.norm(x - y)`. -/
structure Oracles where
  umap : UParams → List Vec → Except Err (List Vec)
  hdbscan : HParams → List Vec → Except Err (List Int × List ℚ)
  llm : LLMOracle
  embedText : String → Except Err Vec
  dist : Vec → Vec → ℚ
  argsort : List ℚ → List Nat

/-- Python `x or default` for the optional `min_dist` float: `None` and `0.0`
both fall back to the settings value (umap_reducer.py line 38). -/
def pyOrQ (x : Option ℚ) (dflt : ℚ) : ℚ :=
  match x with
  | none => dflt
  | some v => if v = 0 then dflt else v

/-- Embedding of `UMAPReducer.fit_transform` (umap_reducer.py lines 43-81):
empty input short-circuits without invoking the library; otherwise
`n_neighbors` is clamped to `batch - 1` and the library is called. -/
def fit_transform (o : Oracles) (p : UParams) (embeddings : List Vec) :
    Except Err (List Vec) :=
  if embeddings.length = 0 then .ok []
  else o.umap { p with n_neighbors := min p.n_neighbors (embeddings.length - 1) } embeddings

/-- Embedding of `HDBSCANClusterer.fit_predict` (hdbscan_clusterer.py lines
62-151): empty input short-circuits; otherwise the external fit runs and its
labels are turned into a `ClusteringResult` by `buildClusteringResult`. -/
def fit_predict (o : Oracles) (hp : HParams) (embeddings : List Vec)
    (record_ids : List RecordId) (texts : List String) :
    Except Err ClusteringResult :=
  if embeddings.length = 0 then
    .ok { clusters := [], noise_indices := [], noise_ids := [], labels := [], probabilities := [] }
  else
    (o.hdbscan hp embeddings).map fun lp =>
      buildClusteringResult o.dist embeddings record_ids texts lp.1 lp.2

/-! ### Database state (src/db/postgres.py)

The tenant's slice of the database: the `topics` rows and the log of
`update_feedback_topic` effects.  `clear_tenant_topics` nulls every feedback
record's topic assignment and deletes the tenant's topics; with the feedback
assignments represented by the write log, clearing empties both lists. -/

/-- A persisted `topics` row (save_topic, postgres.py lines 99-121). -/
structure SavedTopic where
  id : Nat
  title : String
  description : String
  level : Nat
  parent_id : Option Nat
  embedding : Vec
deriving Repr, DecidableEq

/-- One `update_feedback_topic` effect (postgres.py lines 124-138). -/
structure FeedbackWrite where
  record_id : RecordId
  topic_id : Nat
  confidence : ℚ
deriving Repr, DecidableEq

/-- The tenant-scoped database state; `nextId` models the id sequence that
`INSERT ... RETURNING id` draws from. -/
structure DB where
  topics : List SavedTopic
  feedback : List FeedbackWrite
  nextId : Nat
deriving Repr, DecidableEq

/-- Embedding of `clear_tenant_topics` (postgres.py lines 141-164). -/
def clear_tenant_topics (db : DB) : DB :=
  { db with topics := [], feedback := [] }

/-- Embedding of `save_topic` (postgres.py lines 99-121): insert a row, return its id. -/
def save_topic (db : DB) (title description : String) (level : Nat)
    (parent_id : Option Nat) (embedding : Vec) : DB × Nat :=
  ({ db with
      topics := db.topics ++
        [{ id := db.nextId, title := title, description := description,
           level := level, parent_id := parent_id, embedding := embedding }]
      nextId := db.nextId + 1 },
    db.nextId)

/-- The member-update loop bodies of service.py lines 129-132 and 283-286:
one `update_feedback_topic` per member, every one of them carrying the single
cluster-level confidence `1 - min(cluster.avg_distance_to_centroid, 1.0)`. -/
def memberWrites (c : Cluster) (topic_id : Nat) : List FeedbackWrite :=
  c.member_ids.map (fun member_id =>
    { record_id := member_id, topic_id := topic_id,
      confidence := 1 - min c.avg_distance_to_centroid 1 })

/-! ### Result types (src/models/schemas.py) -/

/-- Embedding of `ClusteringJobStatus`. -/
inductive ClusteringJobStatus where
  | pending
  | running
  | completed
  | failed
deriving Repr, DecidableEq

/-- Embedding of `TopicResult`. -/
structure TopicResult where
  id : Nat
  title : String
  description : String
  level : Nat
  parent_id : Option Nat
  cluster_size : Nat
  avg_distance_to_centroid : ℚ
deriving Repr, DecidableEq

/-- Embedding of `ClusterResult` (job id, tenant id and wall-clock timestamps
are omitted: they are fresh-UUID/clock noise with no bearing on any claim). -/
structure ClusterResult where
  status : ClusteringJobStatus
  total_records : Nat
  clustered_records : Nat
  noise_records : Nat
  num_clusters : Nat
  topics : List TopicResult
  error_message : Option String
deriving Repr, DecidableEq

/-- The `except Exception` arm of `generate_taxonomy` (service.py 189-208). -/
def failedResult (e : Err) : ClusterResult :=
  { status := .failed, total_records := 0, clustered_records := 0,
    noise_records := 0, num_clusters := 0, topics := [], error_message := some e }

/-! ### The orchestrator (src/service.py)

`generate_taxonomy` and `_generate_level2_topics`, embedded with the database
state threaded explicitly and `Except` for the exceptions of the awaited
calls.  The single `try/except` of the Python code sits at the top of
`generate_taxonomy`; `_generate_level2_topics` has none, so any error raised
inside it propagates to that top-level handler. -/

/-- UMAP parameters for the level-2 re-reduction (service.py lines 241-244):
fewer dimensions (`min(n_components or 10, 5)`), neighbors clamped to the
sub-population, `min_dist` left to its settings default. -/
def level2UParams (config : ClusterConfig) (numIds : Nat) : UParams :=
  { n_components := min (config.umap_n_components.getD 10) 5
    n_neighbors := min (config.umap_n_neighbors.getD 15) (numIds - 1)
    min_dist := settings_umap_min_dist }

/-- HDBSCAN parameters for the level-2 re-clustering (service.py 248-251). -/
def level2HParams (config : ClusterConfig) : HParams :=
  { min_cluster_size := max ((config.hdbscan_min_cluster_size.getD 50) / 2) 10
    min_samples := max ((config.hdbscan_min_samples.getD 10) / 2) 5
    cluster_selection_epsilon := 0 }

/-- The `for sub_cluster in sub_result.clusters` loop of
`_generate_level2_topics` (service.py lines 256-306).  Note the Python code
calls `label_cluster` with only `parent_title`, leaving `level` at its default
`1`, and a failure of `generate_embedding` propagates. -/
def processSubClusters (o : Oracles) (reduced : List Vec)
    (parent_topic_id : Nat) (parent_title : String) :
    List Cluster → DB → DB × Except Err (List TopicResult)
  | [], db => (db, .ok [])
  | sub_cluster :: rest, db =>
    let closest := get_closest_to_centroid o.dist o.argsort sub_cluster reduced
      settings_centroid_sample_size
    let representative_texts := closest.map (fun e => e.2.1)
    let label := label_cluster o.llm representative_texts sub_cluster.size
      (some parent_title) 1 none
    match o.embedText label.title with
    | .error e => (db, .error e)
    | .ok topic_embedding =>
      let st := save_topic db label.title label.description 2
        (some parent_topic_id) topic_embedding
      let db1 := st.1
      let topic_id := st.2
      let db2 := { db1 with feedback := db1.feedback ++ memberWrites sub_cluster topic_id }
      let t2 : TopicResult :=
        { id := topic_id, title := label.title, description := label.description,
          level := 2, parent_id := some parent_topic_id,
          cluster_size := sub_cluster.size,
          avg_distance_to_centroid := sub_cluster.avg_distance_to_centroid }
      match processSubClusters o reduced parent_topic_id parent_title rest db2 with
      | (db3, .error e) => (db3, .error e)
      | (db3, .ok ts) => (db3, .ok (t2 :: ts))

/-- Embedding of `TaxonomyService._generate_level2_topics` (service.py lines
210-308).  The `(config.hdbscan_min_cluster_size or 50) * 2` floor guard
terminates the branch with an empty list; reduction or discovery errors
propagate (there is no handler in this function). -/
def _generate_level2_topics (o : Oracles) (config : ClusterConfig)
    (parent_topic_id : Nat) (parent_title : String) (cluster : Cluster)
    (embeddings : List Vec) (db : DB) : DB × Except Err (List TopicResult) :=
  let cluster_embeddings := clusterEmbeddings embeddings cluster
  let cluster_ids := cluster.member_ids
  if cluster_ids.length < (config.hdbscan_min_cluster_size.getD 50) * 2 then
    (db, .ok [])
  else
    match fit_transform o (level2UParams config cluster_ids.length) cluster_embeddings with
    | .error e => (db, .error e)
    | .ok reduced =>
      match fit_predict o (level2HParams config) reduced cluster_ids cluster.member_texts with
      | .error e => (db, .error e)
      | .ok sub_result =>
        processSubClusters o reduced parent_topic_id parent_title sub_result.clusters db

/-- The body of the `for cluster in clustering_result.clusters` loop of
`generate_taxonomy` (service.py lines 102-164): label the cluster, persist a
level-1 topic, update the member records, and — when
`config.generate_level2 and cluster.size >= config.level2_min_cluster_size` —
run the level-2 subdivision on exactly this cluster's members. -/
def processCluster1 (o : Oracles) (config : ClusterConfig)
    (embeddings : List Vec) (reduced_embeddings : List Vec) (cluster : Cluster)
    (db : DB) : DB × Except Err (List TopicResult) :=
  let closest := get_closest_to_centroid o.dist o.argsort cluster reduced_embeddings
    settings_centroid_sample_size
  let representative_texts := closest.map (fun e => e.2.1)
  let label := label_cluster o.llm representative_texts cluster.size none 1 none
  match o.embedText label.title with
  | .error e => (db, .error e)
  | .ok topic_embedding =>
    let st := save_topic db label.title label.description 1 none topic_embedding
    let db1 := st.1
    let topic_id := st.2
    let db2 := { db1 with feedback := db1.feedback ++ memberWrites cluster topic_id }
    let t1 : TopicResult :=
      { id := topic_id, title := label.title, description := label.description,
        level := 1, parent_id := none, cluster_size := cluster.size,
        avg_distance_to_centroid := cluster.avg_distance_to_centroid }
    if config.generate_level2 && decide (cluster.size ≥ config.level2_min_cluster_size) then
      match _generate_level2_topics o config topic_id label.title cluster embeddings db2 with
      | (db3, .error e) => (db3, .error e)
      | (db3, .ok level2_topics) => (db3, .ok (t1 :: level2_topics))
    else
      (db2, .ok [t1])

/-- Sequential processing of the level-1 clusters; the first raised error
aborts the remaining clusters (they are never reached) and propagates. -/
def processClusters (o : Oracles) (config : ClusterConfig)
    (embeddings : List Vec) (reduced_embeddings : List Vec) :
    List Cluster → DB → DB × Except Err (List TopicResult)
  | [], db => (db, .ok [])
  | cluster :: rest, db =>
    match processCluster1 o config embeddings reduced_embeddings cluster db with
    | (db1, .error e) => (db1, .error e)
    | (db1, .ok ts) =>
      match processClusters o config embeddings reduced_embeddings rest db1 with
      | (db2, .error e) => (db2, .error e)
      | (db2, .ok ts') => (db2, .ok (ts ++ ts'))

/-- Embedding of `TaxonomyService.generate_taxonomy` (service.py lines
30-208).  `inputs` is the outcome of `load_embeddings_for_tenant`.  The
tenant's topics are cleared **first**; every error raised later is caught by
the single top-level handler, which returns a `failed` result built from
scratch while the database keeps whatever effects already happened. -/
def generate_taxonomy (o : Oracles) (config : ClusterConfig)
    (inputs : Except Err (List RecordId × List Vec × List String)) (db : DB) :
    DB × ClusterResult :=
  let db0 := clear_tenant_topics db
  match inputs with
  | .error e => (db0, failedResult e)
  | .ok (record_ids, embeddings, texts) =>
    if record_ids.length = 0 then
      (db0, { status := .completed, total_records := 0, clustered_records := 0,
              noise_records := 0, num_clusters := 0, topics := [],
              error_message := none })
    else
      let up1 : UParams :=
        { n_components := config.umap_n_components.getD settings_umap_n_components
          n_neighbors := config.umap_n_neighbors.getD settings_umap_n_neighbors
          min_dist := pyOrQ config.umap_min_dist settings_umap_min_dist }
      match fit_transform o up1 embeddings with
      | .error e => (db0, failedResult e)
      | .ok reduced_embeddings =>
        let hp1 : HParams :=
          { min_cluster_size :=
              config.hdbscan_min_cluster_size.getD settings_hdbscan_min_cluster_size
            min_samples := config.hdbscan_min_samples.getD settings_hdbscan_min_samples
            cluster_selection_epsilon := 0 }
        match fit_predict o hp1 reduced_embeddings record_ids texts with
        | .error e => (db0, failedResult e)
        | .ok clustering_result =>
          match processClusters o config embeddings reduced_embeddings
              clustering_result.clusters db0 with
          | (db1, .error e) => (db1, failedResult e)
          | (db1, .ok topics) =>
            (db1,
              { status := .completed
                total_records := record_ids.length
                clustered_records := record_ids.length - clustering_result.noise_ids.length
                noise_records := clustering_result.noise_ids.length
                num_clusters := clustering_result.clusters.length
                topics := topics
                error_message := none })

/-! ### Concrete scenario material

Small closed instantiations used by the witnesses and counterexamples. -/

/-- Empty database. -/
def dbEmpty : DB := { topics := [], feedback := [], nextId := 0 }

/-- A database that already holds one previously generated topic. -/
def dbPrior : DB :=
  { topics := [{ id := 99, title := "Old topic", description := "from the previous build",
                 level := 1, parent_id := none, embedding := [0] }],
    feedback := [], nextId := 100 }

/-- Benign oracles: reduction is the identity, discovery puts every point in
cluster `0` with probability `1`, the labeler answers `("T", "D")`, the
embedding endpoint returns `[0]`, all distances are `0`, and ranking is the
stable order. -/
def oW : Oracles :=
  { umap := fun _ v => .ok v
    hdbscan := fun _ v => .ok (v.map (fun _ => 0), v.map (fun _ => 1))
    llm := fun _ _ _ _ _ => .ok ("T") ("D")
    embedText := fun _ => .ok [0]
    dist := fun _ _ => 0
    argsort := stableArgsort }

/-- An input batch of `n` records with one-dimensional zero embeddings. -/
def inputsN (n : Nat) : Except Err (List RecordId × List Vec × List String) :=
  .ok (List.range n, List.replicate n [0], List.replicate n ("t"))

/-- A configuration whose thresholds make a 10-record batch subdivide. -/
def cfgTiny : ClusterConfig :=
  { hdbscan_min_cluster_size := some 5, level2_min_cluster_size := 10 }

/-- Configuration `cfgTiny` with the taxonomy depth capped at one level. -/
def cfgMax1 : ClusterConfig :=
  { max_levels := 1, hdbscan_min_cluster_size := some 5, level2_min_cluster_size := 10 }

/-- Oracles that fail exactly on the level-2 reduction: the level-2 call is
the only one with `n_components = 5` in the runs below (`min(10, 5)`), while
the level-1 call uses the default `10`. -/
def oFailL2 : Oracles :=
  { oW with
    umap := fun p v =>
      if p.n_components == 5 then .error ("level2 reduction failure") else .ok v }

/-- Like `oFailL2`, but discovery assigns the first ten points to cluster `0`
and the rest to cluster `1`, giving two sibling clusters at level 1. -/
def oSplit : Oracles :=
  { oFailL2 with
    hdbscan := fun _ v =>
      .ok ((List.range v.length).map (fun i => if i < 10 then (0 : Int) else 1),
        v.map (fun _ => 1)) }

/-- Oracles whose embedding endpoint (`OpenAILabeler.generate_embedding`)
always raises. -/
def oEmbFail : Oracles :=
  { oW with embedText := fun _ => .error ("embedding endpoint down") }

/-- A labeler oracle that always fails remotely. -/
def llmAlwaysFail : LLMOracle := fun _ _ _ _ _ => .failure

/-- A concrete one-member cluster (record id 5). -/
def cW : Cluster :=
  { label := 0, member_indices := [0], member_ids := [5], member_texts := ["a"],
    centroid := [0], size := 1, avg_distance_to_centroid := 0 }

/-- A concrete ten-member cluster over records 0-9. -/
def cW10 : Cluster :=
  { label := 0, member_indices := List.range 10, member_ids := List.range 10,
    member_texts := List.replicate 10 ("t"), centroid := [0], size := 10,
    avg_distance_to_centroid := 0 }

/-- A concrete two-member cluster (record ids 4 and 7). -/
def cW2 : Cluster :=
  { label := 0, member_indices := [0, 1], member_ids := [4, 7],
    member_texts := ["a", "b"], centroid := [0], size := 2,
    avg_distance_to_centroid := 0 }

/-- A ranking that returns the positions in reverse.  On a list whose values
are all equal — e.g. the tied distance list of `cW2` — this is a legitimate
output of `np.argsort`'s unstable default sort: a permutation of the
positions along which the values are (trivially) ascending, with the ties in
the opposite of their original order. -/
def revTieSort (v : List ℚ) : List Nat :=
  (List.range v.length).reverse

/-! ### C1 -/

/-- C1: the claim says every returned topic has `1 ≤ level ≤ config.max_levels`
and in particular `max_levels = 1` forbids level-2 topics.  The code never
reads `max_levels` (its only subdivision gate is the deprecated
`generate_level2`/`level2_min_cluster_size` pair), contradicting the schema's
own documentation of `max_levels` as the maximum depth of the hierarchy: with
`max_levels = 1` this 10-record build still produces a level-2 topic. -/
theorem C1_max_levels_ignored :
    cfgMax1.max_levels = 1 ∧
      (generate_taxonomy oW cfgMax1 (inputsN 10) dbEmpty).2.topics.map
          (fun t => t.level) = [1, 2] ∧
      (generate_taxonomy oW cfgMax1 (inputsN 10) dbEmpty).2.status = .completed := by
  refine ⟨rfl, by decide, by decide⟩

/-! ### C2 -/

/-- C2: the claim says a reduction/discovery failure in one cluster's
sub-branch only empties that branch, siblings are still processed and the
build completes.  In the code `_generate_level2_topics` has no exception
handler, so the level-2 reduction failure on the first cluster propagates to
the top-level handler: the build is marked `failed` with zero topics, and the
second (sibling) cluster is never processed — only the first cluster's level-1
topic ever reached the database. -/
theorem C2_counterexample :
    (generate_taxonomy oSplit cfgTiny (inputsN 15) dbEmpty).2.status = .failed ∧
      (generate_taxonomy oSplit cfgTiny (inputsN 15) dbEmpty).2.topics = [] ∧
      (generate_taxonomy oSplit cfgTiny (inputsN 15) dbEmpty).1.topics.map
          (fun t => t.level) = [1] ∧
      (generate_taxonomy oSplit cfgTiny (inputsN 15) dbEmpty).2.error_message =
        some ("level2 reduction failure") := by
  refine ⟨by decide, by decide, by decide, by decide⟩

/-! ### C3 -/

/-- C3: the claim says a cluster whose size equals
`get_min_cluster_size_for_level` of its level (40 at level 1 by default)
triggers exactly one recursive sub-clustering call.  The code never calls
`get_min_cluster_size_for_level`; its gate is
`generate_level2 ∧ size ≥ level2_min_cluster_size` (50 by default) followed by
the `≥ 2·hdbscan_min_cluster_size` floor.  Here a 40-record cluster — exactly
the resolved threshold — triggers **no** sub-clustering call: the oracles fail
on any level-2 reduction, yet the build completes with only the level-1
topic. -/
theorem C3_resolver_ignored :
    (ClusterConfig.get_min_cluster_size_for_level {} 1 = 40) ∧
      (generate_taxonomy oFailL2 {} (inputsN 40) dbEmpty).2.status = .completed ∧
      (generate_taxonomy oFailL2 {} (inputsN 40) dbEmpty).2.topics.map
          (fun t => (t.level, t.cluster_size)) = [(1, 40)] := by
  refine ⟨rfl, by decide, by decide⟩

/-! ### C4 -/

/-- C4: the claim says a failed build leaves the tenant's prior topics intact.
The code clears the tenant's topics **before** loading the input batch, and
nothing restores them: when loading fails, the build returns `failed` with
zero topics while the previously persisted topic is already gone. -/
theorem C4_counterexample :
    (generate_taxonomy oW {} (.error ("load failure")) dbPrior).1.topics = [] ∧
      (generate_taxonomy oW {} (.error ("load failure")) dbPrior).2.status = .failed ∧
      dbPrior.topics ≠ [] := by
  refine ⟨rfl, rfl, by decide⟩

/-- C4 (amended): clearing and rebuilding are **not** atomic.  A build that
fails right after the initial clear (load failure) returns the `failed`
result, and the database is exactly the cleared state: the tenant is left with
zero topics, not with its prior topics. -/
theorem C4_amended (o : Oracles) (config : ClusterConfig) (e : Err) (db : DB) :
    generate_taxonomy o config (.error e) db = (clear_tenant_topics db, failedResult e) := by
  rfl

/-! ### C5 -/

/-- C5: the claim says the input population of every recursive sub-clustering
call is a **proper** subset of the parent invocation's population.  Discovery
may put every record into a single cluster: here the level-1 cluster holds all
10 records of the build, the recursion gate passes, and the level-2 call runs
on an input population of the same size 10 — a subset, but not a proper
one. -/
theorem C5_counterexample :
    (generate_taxonomy oW cfgTiny (inputsN 10) dbEmpty).2.topics.map
        (fun t => (t.level, t.cluster_size)) = [(1, 10), (2, 10)] ∧
      (generate_taxonomy oW cfgTiny (inputsN 10) dbEmpty).2.total_records = 10 := by
  refine ⟨by decide, by decide⟩

/-! ### C7 -/

/-- C7: the claim says no Labeler failure ever aborts the branch or the build.
`label_cluster` indeed never raises, but the Labeler's embedding capability
(`generate_embedding`, openai_labeler.py lines 145-159) has no handler: a
remote error there propagates and the whole build is marked `failed`. -/
theorem C7_counterexample :
    (generate_taxonomy oEmbFail {} (inputsN 10) dbEmpty).2.status = .failed ∧
      (generate_taxonomy oEmbFail {} (inputsN 10) dbEmpty).2.topics = [] ∧
      (generate_taxonomy oEmbFail {} (inputsN 10) dbEmpty).2.error_message =
        some ("embedding endpoint down") := by
  refine ⟨by decide, by decide, by decide⟩

/-- C7 (amended): a failed or malformed chat-completion round trip degrades
`label_cluster` to the deterministic fallback label
`Cluster (<size> items)` / `Auto-generated cluster` instead of raising —
`label_cluster` is total, so no labeling failure aborts the branch.  (A
failure of the Labeler's *embedding* capability is not covered: it
propagates, see the counterexample.) -/
theorem C7_amended (llm : LLMOracle) (representative_texts : List String)
    (cluster_size : Nat) (parent_title : Option String) (level : Nat)
    (ancestor_titles : Option (List String))
    (h : llm representative_texts cluster_size parent_title level ancestor_titles = .malformed ∨
      llm representative_texts cluster_size parent_title level ancestor_titles = .failure) :
    label_cluster llm representative_texts cluster_size parent_title level ancestor_titles =
      { title := "Cluster (" ++ toString cluster_size ++ " items)"
        description := "Auto-generated cluster" } := by
  rcases h with h | h <;> simp [label_cluster, h, fallbackLabel]

/-- Witness for `C7_amended` at a concrete failing oracle and cluster size. -/
theorem C7_amended_witness :
    (llmAlwaysFail [] 7 none 1 none = .malformed ∨ llmAlwaysFail [] 7 none 1 none = .failure) ∧
      label_cluster llmAlwaysFail [] 7 none 1 none =
        { title := "Cluster (" ++ toString 7 ++ " items)"
          description := "Auto-generated cluster" } :=
  ⟨Or.inr rfl, C7_amended llmAlwaysFail [] 7 none 1 none (Or.inr rfl)⟩

/-! ### C9 -/

/-- C9: every feedback update emitted for a member of an accepted cluster
carries the confidence `1 - min(cluster.avg_distance_to_centroid, 1.0)`, the
same single cluster-level value for every member (the member's own distance
and the discoverer's per-point probability are never consulted).
`memberWrites` is exactly the update loop used for level-1 clusters
(service.py 129-132) and sub-clusters (283-286). -/
theorem C9_confidence (c : Cluster) (topic_id : Nat) (w : FeedbackWrite)
    (hw : w ∈ memberWrites c topic_id) :
    w.confidence = 1 - min c.avg_distance_to_centroid 1 ∧
      ∀ w' ∈ memberWrites c topic_id, w'.confidence = w.confidence := by
  simp only [memberWrites, List.mem_map] at hw
  obtain ⟨m, _, rfl⟩ := hw
  refine ⟨rfl, ?_⟩
  intro w' hw'
  simp only [memberWrites, List.mem_map] at hw'
  obtain ⟨m', _, rfl⟩ := hw'
  rfl

/-- Witness for `C9_confidence` on the one-member cluster `cW`. -/
theorem C9_confidence_witness :
    ({ record_id := 5, topic_id := 3,
       confidence := 1 - min cW.avg_distance_to_centroid 1 } ∈ memberWrites cW 3) ∧
      (({ record_id := 5, topic_id := 3,
          confidence := 1 - min cW.avg_distance_to_centroid 1 } : FeedbackWrite).confidence =
          1 - min cW.avg_distance_to_centroid 1 ∧
        ∀ w' ∈ memberWrites cW 3,
          w'.confidence =
            ({ record_id := 5, topic_id := 3,
               confidence := 1 - min cW.avg_distance_to_centroid 1 } : FeedbackWrite).confidence) :=
  ⟨List.Mem.head _, C9_confidence cW 3 _ (List.Mem.head _)⟩

/-- C2 (amended): failure of the level-2 reduction is **not** isolated to the
branch: once the subdivision floor guard passes, a reducer error is returned
(raised) unchanged out of `_generate_level2_topics`, with no topics added for
the branch — it then fails the whole build at the top-level handler. -/
theorem C2_amended (o : Oracles) (config : ClusterConfig) (parent_topic_id : Nat)
    (parent_title : String) (cluster : Cluster) (embeddings : List Vec) (db : DB) (e : Err)
    (h1 : ¬ cluster.member_ids.length < (config.hdbscan_min_cluster_size.getD 50) * 2)
    (h2 : fit_transform o (level2UParams config cluster.member_ids.length)
        (clusterEmbeddings embeddings cluster) = .error e) :
    _generate_level2_topics o config parent_topic_id parent_title cluster embeddings db =
      (db, .error e) := by
  simp only [_generate_level2_topics, if_neg h1, h2]

/-- Witness for `C2_amended`: the ten-member cluster under `cfgTiny` passes
the floor guard and the level-2 reduction fails. -/
theorem C2_amended_witness :
    (¬ cW10.member_ids.length < ((cfgTiny.hdbscan_min_cluster_size).getD 50) * 2) ∧
      (fit_transform oFailL2 (level2UParams cfgTiny cW10.member_ids.length)
          (clusterEmbeddings (List.replicate 10 [0]) cW10) =
        .error ("level2 reduction failure")) ∧
      _generate_level2_topics oFailL2 cfgTiny 0 ("T") cW10 (List.replicate 10 [0]) dbEmpty =
        (dbEmpty, .error ("level2 reduction failure")) :=
  ⟨by decide, rfl,
    C2_amended oFailL2 cfgTiny 0 ("T") cW10 (List.replicate 10 [0]) dbEmpty
      ("level2 reduction failure") (by decide) rfl⟩

/-- Membership in the member indices of a discovered cluster is exactly
"position in range with the matching label". -/
theorem mem_clusterFor_member_indices (dist : Vec → Vec → ℚ) (embeddings : List Vec)
    (record_ids : List RecordId) (texts : List String) (labels : List Int) (lab : Int)
    (i : Nat) :
    i ∈ (clusterFor dist embeddings record_ids texts labels lab).member_indices ↔
      i < labels.length ∧ labels.getD i (-1) = lab := by
  simp [clusterFor, List.mem_filter, List.mem_range]

/-- C5 (amended): the input population of a level-2 call is the recursed
cluster's member set, hence always a subset of the parent invocation's
population and never larger — but not necessarily a **proper** subset:
discovery may assign every record to one cluster (see the counterexample). -/
theorem C5_amended (dist : Vec → Vec → ℚ) (embeddings : List Vec)
    (record_ids : List RecordId) (texts : List String) (labels : List Int)
    (probabilities : List ℚ) (c : Cluster)
    (hlen : labels.length = record_ids.length)
    (hc : c ∈ (buildClusteringResult dist embeddings record_ids texts labels
        probabilities).clusters) :
    (∀ x ∈ c.member_ids, x ∈ record_ids) ∧ c.member_ids.length ≤ record_ids.length := by
  simp only [buildClusteringResult, List.mem_map] at hc
  obtain ⟨lab, _, rfl⟩ := hc
  constructor
  · intro x hx
    simp only [clusterFor, List.mem_map] at hx
    obtain ⟨i, hi, rfl⟩ := hx
    rw [List.mem_filter] at hi
    have h1 : i < labels.length := List.mem_range.mp hi.1
    have h2 : i < record_ids.length := hlen ▸ h1
    simp only [List.getD_eq_getElem?_getD, List.getElem?_eq_getElem h2, Option.getD_some]
    exact List.getElem_mem h2
  · simp only [clusterFor, List.length_map]
    calc ((List.range labels.length).filter
          (fun i => labels.getD i (-1) == lab)).length
        ≤ (List.range labels.length).length := List.length_filter_le _ _
      _ = labels.length := List.length_range _
      _ = record_ids.length := hlen

/-- Witness for `C5_amended`: a concrete two-record batch whose single
discovered cluster contains both records. -/
theorem C5_amended_witness :
    (([0, 0] : List Int).length = ([4, 7] : List RecordId).length) ∧
      ((∀ x ∈ (clusterFor oW.dist [[0], [1]] [4, 7] ["a", "b"] [0, 0] 0).member_ids,
          x ∈ ([4, 7] : List RecordId)) ∧
        (clusterFor oW.dist [[0], [1]] [4, 7] ["a", "b"] [0, 0] 0).member_ids.length ≤
          ([4, 7] : List RecordId).length) :=
  ⟨rfl, C5_amended oW.dist [[0], [1]] [4, 7] ["a", "b"] [0, 0] [1, 1] _ rfl (List.Mem.head _)⟩

/-- Membership in the noise set is exactly "position in range labelled -1". -/
theorem mem_noise_indices (dist : Vec → Vec → ℚ) (embeddings : List Vec)
    (record_ids : List RecordId) (texts : List String) (labels : List Int)
    (probabilities : List ℚ) (i : Nat) :
    i ∈ (buildClusteringResult dist embeddings record_ids texts labels
        probabilities).noise_indices ↔
      i < labels.length ∧ labels.getD i (-1) = -1 := by
  simp [buildClusteringResult, List.mem_filter, List.mem_range]

/-- The sorted distinct non-noise labels contain `lab` iff `lab` occurs in the
label vector and is not `-1`, and they contain it without duplicates. -/
theorem mem_unique_labels (labels : List Int) (lab : Int) :
    (lab ∈ List.insertionSort (· ≤ ·) ((labels.filter (fun x => x != -1)).dedup) ↔
        lab ∈ labels ∧ lab ≠ -1) ∧
      (List.insertionSort (· ≤ ·) ((labels.filter (fun x => x != -1)).dedup)).Nodup := by
  constructor
  · rw [(List.perm_insertionSort _ _).mem_iff, List.mem_dedup, List.mem_filter,
      bne_iff_ne]
  · exact (List.perm_insertionSort _ _).nodup_iff.mpr (List.nodup_dedup _)

/-- C8: for every input batch, the `ClusteringResult` built by `fit_predict`
partitions the input positions: each position `i` is counted exactly once
across the clusters' member sets and the noise set — never in both, never in
neither. -/
theorem C8_partition (dist : Vec → Vec → ℚ) (embeddings : List Vec)
    (record_ids : List RecordId) (texts : List String) (labels : List Int)
    (probabilities : List ℚ) (i : Nat)
    (hlen : labels.length = record_ids.length) (hi : i < record_ids.length) :
    (if i ∈ (buildClusteringResult dist embeddings record_ids texts labels
        probabilities).noise_indices then 1 else 0) +
      ((buildClusteringResult dist embeddings record_ids texts labels
        probabilities).clusters.countP (fun c => decide (i ∈ c.member_indices))) = 1 := by
  have hil : i < labels.length := hlen ▸ hi
  have hxmem : labels.getD i (-1) ∈ labels := by
    simp only [List.getD_eq_getElem?_getD, List.getElem?_eq_getElem hil, Option.getD_some]
    exact List.getElem_mem hil
  have hcount : (buildClusteringResult dist embeddings record_ids texts labels
      probabilities).clusters.countP (fun c => decide (i ∈ c.member_indices)) =
      (List.insertionSort (· ≤ ·) ((labels.filter (fun x => x != -1)).dedup)).count
        (labels.getD i (-1)) := by
    simp only [buildClusteringResult, List.countP_map]
    rw [List.count_eq_countP]
    refine List.countP_congr ?_
    intro lab _
    simp only [Function.comp_apply, decide_eq_true_eq, beq_iff_eq,
      mem_clusterFor_member_indices]
    constructor
    · intro h; exact h.2.symm
    · intro h; exact ⟨hil, h.symm⟩
  by_cases hx : labels.getD i (-1) = -1
  · rw [if_pos ((mem_noise_indices dist embeddings record_ids texts labels
      probabilities i).mpr ⟨hil, hx⟩)]
    rw [hcount, List.count_eq_zero.mpr, Nat.add_zero]
    intro hmem
    exact ((mem_unique_labels labels _).1.mp hmem).2 hx
  · rw [if_neg (fun hmem => hx ((mem_noise_indices dist embeddings record_ids texts
      labels probabilities i).mp hmem).2)]
    rw [hcount, Nat.zero_add]
    exact List.count_eq_one_of_mem (mem_unique_labels labels (labels.getD i (-1))).2
      ((mem_unique_labels labels (labels.getD i (-1))).1.mpr ⟨hxmem, hx⟩)

/-- Witness for `C8_partition`: a three-point batch with one cluster and one
noise point, checked at the noise position. -/
theorem C8_partition_witness :
    (([0, 0, -1] : List Int).length = ([3, 4, 5] : List RecordId).length) ∧ (2 < 3) ∧
      (if 2 ∈ (buildClusteringResult oW.dist [[0], [1], [2]] [3, 4, 5] ["a", "b", "c"]
          [0, 0, -1] [1, 1, 0]).noise_indices then 1 else 0) +
        ((buildClusteringResult oW.dist [[0], [1], [2]] [3, 4, 5] ["a", "b", "c"]
          [0, 0, -1] [1, 1, 0]).clusters.countP (fun c => decide (2 ∈ c.member_indices))) = 1 :=
  ⟨rfl, by decide,
    C8_partition oW.dist [[0], [1], [2]] [3, 4, 5] ["a", "b", "c"] [0, 0, -1] [1, 1, 0] 2
      rfl (by decide)⟩

/-- Transitivity of `lexLt`. -/
theorem lexLt_trans {v : List ℚ} {i j k : Nat} (h1 : lexLt v i j) (h2 : lexLt v j k) :
    lexLt v i k := by
  rcases h1 with h1 | ⟨e1, l1⟩ <;> rcases h2 with h2 | ⟨e2, l2⟩
  · exact Or.inl (h1.trans h2)
  · exact Or.inl (e2 ▸ h1)
  · exact Or.inl (e1 ▸ h2)
  · exact Or.inr ⟨e1.trans e2, l1.trans l2⟩

/-- Totality of `lexLt` on distinct positions. -/
theorem lexLt_total {v : List ℚ} {i j : Nat} (h : i ≠ j) :
    lexLt v i j ∨ lexLt v j i := by
  rcases lt_trichotomy (v.getD i 0) (v.getD j 0) with hv | hv | hv
  · exact Or.inl (Or.inl hv)
  · rcases Nat.lt_or_ge i j with hij | hij
    · exact Or.inl (Or.inr ⟨hv, hij⟩)
    · exact Or.inr (Or.inr ⟨hv.symm, Nat.lt_of_le_of_ne hij (Ne.symm h)⟩)
  · exact Or.inr (Or.inl hv)

/-- Inserting a position permutes with consing it. -/
theorem argsortInsert_perm (v : List ℚ) (i : Nat) (l : List Nat) :
    List.Perm (argsortInsert v i l) (i :: l) := by
  induction l with
  | nil => simp [argsortInsert]
  | cons j t ih =>
    by_cases h : lexLt v j i
    · simp only [argsortInsert, if_pos h]
      exact (List.Perm.cons j ih).trans (List.Perm.swap i j t)
    · simp only [argsortInsert, if_neg h]
      exact List.Perm.refl _

/-- Inserting a fresh position preserves `lexLt`-sortedness. -/
theorem argsortInsert_pairwise {v : List ℚ} {i : Nat} {l : List Nat}
    (hl : l.Pairwise (lexLt v)) (hi : i ∉ l) :
    (argsortInsert v i l).Pairwise (lexLt v) := by
  induction l with
  | nil => simp [argsortInsert]
  | cons j t ih =>
    rw [List.pairwise_cons] at hl
    obtain ⟨hj, ht⟩ := hl
    have hij : i ≠ j := fun e => hi (e ▸ List.Mem.head t)
    have hit : i ∉ t := fun m => hi (List.Mem.tail j m)
    by_cases h : lexLt v j i
    · simp only [argsortInsert, if_pos h]
      rw [List.pairwise_cons]
      refine ⟨?_, ih ht hit⟩
      intro a ha
      rcases List.mem_cons.mp ((argsortInsert_perm v i t).mem_iff.mp ha) with e | m
      · exact e ▸ h
      · exact hj a m
    · simp only [argsortInsert, if_neg h]
      have hji : lexLt v i j := Or.resolve_right (lexLt_total hij) h
      rw [List.pairwise_cons]
      refine ⟨?_, List.pairwise_cons.mpr ⟨hj, ht⟩⟩
      intro a ha
      rcases List.mem_cons.mp ha with e | m
      · exact e ▸ hji
      · exact lexLt_trans hji (hj a m)

/-- Insertion-sorting a position list is a permutation of it. -/
theorem foldr_argsortInsert_perm (v : List ℚ) (l : List Nat) :
    List.Perm (l.foldr (argsortInsert v) []) l := by
  induction l with
  | nil => exact List.Perm.refl _
  | cons i t ih => exact (argsortInsert_perm v i _).trans (List.Perm.cons i ih)

/-- Insertion-sorting a duplicate-free position list yields a
`lexLt`-sorted list. -/
theorem foldr_argsortInsert_pairwise (v : List ℚ) (l : List Nat) (hl : l.Nodup) :
    (l.foldr (argsortInsert v) []).Pairwise (lexLt v) := by
  induction l with
  | nil => exact List.Pairwise.nil
  | cons i t ih =>
    rw [List.nodup_cons] at hl
    exact argsortInsert_pairwise (ih hl.2)
      (fun m => hl.1 ((foldr_argsortInsert_perm v t).mem_iff.mp m))

/-- The stable ranking is a permutation of the positions
`0, …, v.length - 1` (so it is one legitimate `np.argsort` output). -/
theorem stableArgsort_perm (v : List ℚ) :
    List.Perm (stableArgsort v) (List.range v.length) :=
  foldr_argsortInsert_perm v _

/-- The stable ranking is sorted by the strict total order `lexLt v`. -/
theorem stableArgsort_pairwise (v : List ℚ) : (stableArgsort v).Pairwise (lexLt v) :=
  foldr_argsortInsert_pairwise v _ (List.nodup_range _)

/-- The stable ranking is ascending in the values themselves, the half of
`lexLt` that `np.argsort`'s documented contract does guarantee. -/
theorem stableArgsort_sorted (v : List ℚ) :
    (stableArgsort v).Pairwise (fun i j => v.getD i 0 ≤ v.getD j 0) := by
  refine List.Pairwise.imp ?_ (stableArgsort_pairwise v)
  intro i j hij
  rcases hij with hij | ⟨hij, _⟩
  · exact le_of_lt hij
  · exact le_of_eq hij

/-- The distance list of a cluster has one entry per member. -/
theorem centroidDistances_length (dist : Vec → Vec → ℚ) (c : Cluster)
    (embeddings : List Vec) :
    (centroidDistances dist c embeddings).length = c.member_indices.length := by
  simp [centroidDistances, clusterEmbeddings]

/-- C6: the claim says ties are broken by the members' original order (a
stable ordering).  The code calls `np.argsort` with its default
`kind='quicksort'`, which numpy documents as **not** stable, so no such
guarantee exists.  Concretely: on the two-member cluster `cW2` both members
are at distance `0` from the centroid (a tie); `revTieSort` is a legitimate
`np.argsort` output for that distance list — a permutation of the positions
along which the distances are ascending — yet `get_closest_to_centroid`
driven by it returns the members as `[1, 0]`, the reverse of the original
member order `[0, 1]`. -/
theorem C6_counterexample :
    (centroidDistances oW.dist cW2 [[0], [1]] = [0, 0]) ∧
      List.Perm (revTieSort (centroidDistances oW.dist cW2 [[0], [1]]))
        (List.range (centroidDistances oW.dist cW2 [[0], [1]]).length) ∧
      (revTieSort (centroidDistances oW.dist cW2 [[0], [1]])).Pairwise
        (fun i j => (centroidDistances oW.dist cW2 [[0], [1]]).getD i 0 ≤
          (centroidDistances oW.dist cW2 [[0], [1]]).getD j 0) ∧
      (get_closest_to_centroid oW.dist revTieSort cW2 [[0], [1]] 10).map
          (fun e => e.1) = [1, 0] ∧
      cW2.member_indices = [0, 1] :=
  ⟨by decide, List.Perm.swap 0 1 [], by decide, by decide, by decide⟩

/-- C6 (amended): for every ranking that `np.argsort` may legally return for
the member-distance list — a permutation of all member positions along which
the distances are ascending — `get_closest_to_centroid` returns exactly
`min n cluster.size` entries, every returned index one of the cluster's own
members, with ascending distances.  The order among equal distances is
whatever the (unstable) library sort produced; original member order is not
guaranteed (see the counterexample). -/
theorem C6_amended (dist : Vec → Vec → ℚ) (argsortFn : List ℚ → List Nat)
    (c : Cluster) (embeddings : List Vec) (n : Nat)
    (hsz : c.size = c.member_indices.length)
    (hperm : List.Perm (argsortFn (centroidDistances dist c embeddings))
      (List.range (centroidDistances dist c embeddings).length))
    (hsorted : (argsortFn (centroidDistances dist c embeddings)).Pairwise
      (fun i j => (centroidDistances dist c embeddings).getD i 0 ≤
        (centroidDistances dist c embeddings).getD j 0)) :
    (get_closest_to_centroid dist argsortFn c embeddings n).length = min n c.size ∧
      (∀ e ∈ get_closest_to_centroid dist argsortFn c embeddings n,
        e.1 ∈ c.member_indices) ∧
      (get_closest_to_centroid dist argsortFn c embeddings n).Pairwise
        (fun a b => a.2.2 ≤ b.2.2) := by
  have hdl : (centroidDistances dist c embeddings).length = c.member_indices.length :=
    centroidDistances_length dist c embeddings
  have hlen : (argsortFn (centroidDistances dist c embeddings)).length =
      (centroidDistances dist c embeddings).length := by
    rw [hperm.length_eq, List.length_range]
  refine ⟨?_, ?_, ?_⟩
  · simp only [get_closest_to_centroid, List.length_map, List.length_take, hlen, hdl, hsz]
  · intro e he
    simp only [get_closest_to_centroid, List.mem_map] at he
    obtain ⟨li, hli, rfl⟩ := he
    have hmem : li ∈ argsortFn (centroidDistances dist c embeddings) :=
      List.take_subset n _ hli
    have hlt : li < c.member_indices.length := by
      rw [← hdl]
      exact List.mem_range.mp (hperm.mem_iff.mp hmem)
    simp only [List.getD_eq_getElem?_getD, List.getElem?_eq_getElem hlt, Option.getD_some]
    exact List.getElem_mem hlt
  · simp only [get_closest_to_centroid]
    rw [List.pairwise_map]
    exact hsorted.sublist (List.take_sublist n _)

/-- Witness for `C6_amended` on the two-member cluster `cW2` with the stable
ranking as the library's output. -/
theorem C6_amended_witness :
    (cW2.size = cW2.member_indices.length) ∧
      List.Perm (stableArgsort (centroidDistances oW.dist cW2 [[0], [1]]))
        (List.range (centroidDistances oW.dist cW2 [[0], [1]]).length) ∧
      ((get_closest_to_centroid oW.dist stableArgsort cW2 [[0], [1]] 1).length =
          min 1 cW2.size ∧
        (∀ e ∈ get_closest_to_centroid oW.dist stableArgsort cW2 [[0], [1]] 1,
          e.1 ∈ cW2.member_indices) ∧
        (get_closest_to_centroid oW.dist stableArgsort cW2 [[0], [1]] 1).Pairwise
          (fun a b => a.2.2 ≤ b.2.2)) :=
  ⟨rfl, stableArgsort_perm _,
    C6_amended oW.dist stableArgsort cW2 [[0], [1]] 1 rfl (stableArgsort_perm _)
      (stableArgsort_sorted _)⟩

/-- Per-cluster processing reads none of the per-level configuration fields:
replacing `max_levels` and the two per-level maps is invisible to it. -/
theorem processCluster1_level_fields (o : Oracles) (config : ClusterConfig)
    (em re : List Vec) (cl : Cluster) (db : DB) (m : Nat) (a b : List (Nat × Nat)) :
    processCluster1 o
        { config with
          max_levels := m, level_min_cluster_sizes := a,
          level_hdbscan_min_cluster_sizes := b } em re cl db =
      processCluster1 o config em re cl db := by
  rfl

/-- The level-1 cluster loop reads none of the per-level configuration
fields. -/
theorem processClusters_level_fields (o : Oracles) (config : ClusterConfig)
    (em re : List Vec) (m : Nat) (a b : List (Nat × Nat)) :
    ∀ (clusters : List Cluster) (db : DB),
      processClusters o
          { config with
            max_levels := m, level_min_cluster_sizes := a,
            level_hdbscan_min_cluster_sizes := b } em re clusters db =
        processClusters o config em re clusters db := by
  intro clusters
  induction clusters with
  | nil => intro db; rfl
  | cons c rest ih =>
    intro db
    simp only [processClusters, processCluster1_level_fields]
    rcases processCluster1 o config em re c db with ⟨db1, r⟩
    cases r with
    | error e => rfl
    | ok ts =>
      dsimp only
      rw [ih db1]

/-- C10: `generate_taxonomy` is independent of `max_levels`,
`level_min_cluster_sizes` and `level_hdbscan_min_cluster_sizes`: replacing
exactly these three fields leaves the final database state (persisted topics
and feedback writes) and the returned result — topics, summary counts and
status — unchanged for every oracle set, input batch and starting database.
Subdivision is driven only by the deprecated `generate_level2` and
`level2_min_cluster_size` fields together with `hdbscan_min_cluster_size`. -/
theorem C10_level_fields_unread (o : Oracles) (config : ClusterConfig)
    (inputs : Except Err (List RecordId × List Vec × List String)) (db : DB)
    (m : Nat) (a b : List (Nat × Nat)) :
    generate_taxonomy o
        { config with
          max_levels := m, level_min_cluster_sizes := a,
          level_hdbscan_min_cluster_sizes := b } inputs db =
      generate_taxonomy o config inputs db := by
  simp only [generate_taxonomy, processClusters_level_fields]

end Hub
